import Mathlib

/-!
The otlog package: severity scale, string tables, band predicates and
forwarding methods.

A shallow embedding of the Go package `otlog` (files `logger.go`, `log.go`,
`init.go`, `record.go`) together with theorems about it.

Conventions of the embedding:

* Go integers of type `Severity` are Lean integers. The source performs no
  arithmetic on them, only comparisons and table lookups, so no wrap-around
  can occur.
* A Go `map` literal with pairwise distinct keys is an association list in the
  order of the literal; indexing is `List.lookup`.
* A Go `error` is an `Option String`: `none` is `nil`, `some msg` is the error
  built by `fmt.Errorf`.
-/

set_option autoImplicit false

namespace Otlog

/-! ## Go runtime helpers -/

/-- Go `fmt` verb `%d` applied to an integer: its decimal text, with a leading
minus sign for negative values. -/
def fmtD (v : Int) : String :=
  match v with
  | Int.ofNat n => Nat.repr n
  | Int.negSucc n => "-" ++ Nat.repr (n + 1)

/-- Go comma-ok map index `val, ok := m[k]` on a map literal. -/
def mapIndex {κ ν : Type} [BEq κ] (m : List (κ × ν)) (k : κ) : Option ν :=
  m.lookup k

/-- Go plain map index `m[k]` on a map with string values: a missing key
yields the zero value, the empty string. -/
def mapIndexStr {κ : Type} [BEq κ] (m : List (κ × String)) (k : κ) : String :=
  match mapIndex m k with
  | some s => s
  | none => ""

/-! ## logger.go: the Severity scale -/

/-- Modelled from the spec: `type Severity slog.Level`, where `slog.Level` is
declared by the external logging engine and is described by the spec as a plain
integer level. It is embedded as an unbounded integer, which contains every
machine integer type the engine could choose. -/
abbrev Severity : Type := Int

def TraceSeverity : Severity := 1
def Trace2Severity : Severity := 2
def Trace3Severity : Severity := 3
def Trace4Severity : Severity := 4
def DebugSeverity : Severity := 5
def Debug2Severity : Severity := 6
def Debug3Severity : Severity := 7
def Debug4Severity : Severity := 8
def InfoSeverity : Severity := 9
def Info2Severity : Severity := 10
def Info3Severity : Severity := 11
def Info4Severity : Severity := 12
def WarnSeverity : Severity := 13
def Warn2Severity : Severity := 14
def Warn3Severity : Severity := 15
def Warn4Severity : Severity := 16
def ErrorSeverity : Severity := 17
def Error2Severity : Severity := 18
def Error3Severity : Severity := 19
def Error4Severity : Severity := 20
def FatalSeverity : Severity := 21
def Fatal2Severity : Severity := 22
def Fatal3Severity : Severity := 23
def Fatal4Severity : Severity := 24

/-- The map literal `severityToStr` of logger.go. -/
def severityToStr : List (Severity × String) :=
  [ (TraceSeverity, "TRACE"),
    (Trace2Severity, "TRACE2"),
    (Trace3Severity, "TRACE3"),
    (Trace4Severity, "TRACE4"),
    (DebugSeverity, "DEBUG"),
    (Debug2Severity, "DEBUG2"),
    (Debug3Severity, "DEBUG3"),
    (Debug4Severity, "DEBUG4"),
    (InfoSeverity, "INFO"),
    (Info2Severity, "INFO2"),
    (Info3Severity, "INFO3"),
    (Info4Severity, "INFO4"),
    (WarnSeverity, "WARN"),
    (Warn2Severity, "WARN2"),
    (Warn3Severity, "WARN3"),
    (Warn4Severity, "WARN4"),
    (ErrorSeverity, "ERROR"),
    (Error2Severity, "ERROR2"),
    (Error3Severity, "ERROR3"),
    (Error4Severity, "ERROR4"),
    (FatalSeverity, "FATAL"),
    (Fatal2Severity, "FATAL2"),
    (Fatal3Severity, "FATAL3"),
    (Fatal4Severity, "FATAL4") ]

/-- The map literal `strToSeverity` of logger.go; every key carries its two
double-quote characters. -/
def strToSeverity : List (String × Severity) :=
  [ ("\"TRACE\"", TraceSeverity),
    ("\"TRACE2\"", Trace2Severity),
    ("\"TRACE3\"", Trace3Severity),
    ("\"TRACE4\"", Trace4Severity),
    ("\"DEBUG\"", DebugSeverity),
    ("\"DEBUG2\"", Debug2Severity),
    ("\"DEBUG3\"", Debug3Severity),
    ("\"DEBUG4\"", Debug4Severity),
    ("\"INFO\"", InfoSeverity),
    ("\"INFO2\"", Info2Severity),
    ("\"INFO3\"", Info3Severity),
    ("\"INFO4\"", Info4Severity),
    ("\"WARN\"", WarnSeverity),
    ("\"WARN2\"", Warn2Severity),
    ("\"WARN3\"", Warn3Severity),
    ("\"WARN4\"", Warn4Severity),
    ("\"ERROR\"", ErrorSeverity),
    ("\"ERROR2\"", Error2Severity),
    ("\"ERROR3\"", Error3Severity),
    ("\"ERROR4\"", Error4Severity),
    ("\"FATAL\"", FatalSeverity),
    ("\"FATAL2\"", Fatal2Severity),
    ("\"FATAL3\"", Fatal3Severity),
    ("\"FATAL4\"", Fatal4Severity) ]

/-- Go `SeverityValue`: comma-ok lookup in `strToSeverity`; on a miss the
value 0 and an error. -/
def SeverityValue (str : String) : Severity × Option String :=
  match mapIndex strToSeverity str with
  | some val => (val, none)
  | none => (0, some ("invalid OpenTelemetry log Severity name - " ++ str))

/-- Go method `(s Severity) String()`. -/
def Severity.String (s : Severity) : String :=
  if s < TraceSeverity ∨ s > Fatal4Severity then
    "**INVALID OpenTelemetry log Severity value - " ++ fmtD s ++ "**"
  else
    mapIndexStr severityToStr s

def Severity.IsTraceSeverity (s : Severity) : Bool :=
  if s ≥ TraceSeverity ∧ s ≤ Trace4Severity then true else false

def Severity.IsDebugSeverity (s : Severity) : Bool :=
  if s ≥ DebugSeverity ∧ s < Debug4Severity then true else false

def Severity.IsInfoSeverity (s : Severity) : Bool :=
  if s ≥ InfoSeverity ∧ s ≤ Info4Severity then true else false

def Severity.IsWarnSeverity (s : Severity) : Bool :=
  if s ≥ WarnSeverity ∧ s ≤ Warn4Severity then true else false

/-- Go `ShouldNotIgnore`: any severity of 17 or above. -/
def Severity.ShouldNotIgnore (s : Severity) : Bool :=
  decide (s ≥ ErrorSeverity)

def Severity.IsErrorSeverity (s : Severity) : Bool :=
  if s ≥ ErrorSeverity ∧ s ≤ Error4Severity then true else false

def Severity.IsFatalSeverity (s : Severity) : Bool :=
  if s ≥ FatalSeverity ∧ s ≤ Fatal4Severity then true else false

/-! ## The external log engine and the forwarding methods of logger.go -/

/-- A Go value of interface type `any`, as far as a forwarding method can
tell values apart: scalars, and slices of `any` (a `[]any` stored in an `any`). -/
inductive GoAny where
  | int (n : Int)
  | str (s : String)
  | slice (xs : List GoAny)

/-- One call received by the engine: the method called, the level, the format
string of `Logf`, and the variadic parameter as the callee sees it. -/
inductive EngineCall where
  | Log (level : Int) (args : List GoAny)
  | Logf (level : Int) (format : String) (args : List GoAny)

/-- The variadic parameter the engine received in a call. -/
def EngineCall.received : EngineCall → List GoAny
  | EngineCall.Log _ args => args
  | EngineCall.Logf _ _ args => args

/-- Modelled from the spec: the external Log Engine `slog.Logger`, whose
contract is `Log(level, args ...any)` and `Logf(level, format, args ...any)`.
Its state is the sequence of calls it has received so far. -/
structure SlogLogger where
  calls : List EngineCall

/-- Modelled from the spec: engine operation `Log(level, args ...any)`; `args`
is the variadic parameter as the callee sees it. -/
def SlogLogger.Log (r : SlogLogger) (level : Int) (args : List GoAny) : SlogLogger :=
  ⟨r.calls ++ [EngineCall.Log level args]⟩

/-- Modelled from the spec: engine operation
`Logf(level, format, args ...any)`. -/
def SlogLogger.Logf (r : SlogLogger) (level : Int) (format : String) (args : List GoAny) :
    SlogLogger :=
  ⟨r.calls ++ [EngineCall.Logf level format args]⟩

/-- Go `type OTLogger struct { logger slog.Logger }`. -/
structure OTLogger where
  logger : SlogLogger

/-!
Every forwarding method has the body `l.logger.Log(slog.Level(C), args)` or
`l.logger.Logf(slog.Level(C), format, args)`. Inside the method `args` is one
value of type `[]any`, and the call passes it without the `...` suffix. By the
Go rule for variadic calls the callee then receives a new slice whose elements
are the actual arguments, here the single element `args`, which is
`[GoAny.slice args]` below.
-/

def OTLogger.Trace (l : OTLogger) (args : List GoAny) : OTLogger :=
  ⟨l.logger.Log TraceSeverity [GoAny.slice args]⟩

def OTLogger.Trace2 (l : OTLogger) (args : List GoAny) : OTLogger :=
  ⟨l.logger.Log Trace2Severity [GoAny.slice args]⟩

def OTLogger.Trace3 (l : OTLogger) (args : List GoAny) : OTLogger :=
  ⟨l.logger.Log Trace3Severity [GoAny.slice args]⟩

def OTLogger.Trace4 (l : OTLogger) (args : List GoAny) : OTLogger :=
  ⟨l.logger.Log Trace4Severity [GoAny.slice args]⟩

def OTLogger.Tracef (l : OTLogger) (format : String) (args : List GoAny) : OTLogger :=
  ⟨l.logger.Logf TraceSeverity format [GoAny.slice args]⟩

def OTLogger.Tracef2 (l : OTLogger) (format : String) (args : List GoAny) : OTLogger :=
  ⟨l.logger.Logf Trace2Severity format [GoAny.slice args]⟩

def OTLogger.Tracef3 (l : OTLogger) (format : String) (args : List GoAny) : OTLogger :=
  ⟨l.logger.Logf Trace3Severity format [GoAny.slice args]⟩

def OTLogger.Tracef4 (l : OTLogger) (format : String) (args : List GoAny) : OTLogger :=
  ⟨l.logger.Logf Trace4Severity format [GoAny.slice args]⟩

def OTLogger.Debug (l : OTLogger) (args : List GoAny) : OTLogger :=
  ⟨l.logger.Log DebugSeverity [GoAny.slice args]⟩

def OTLogger.Debug2 (l : OTLogger) (args : List GoAny) : OTLogger :=
  ⟨l.logger.Log Debug2Severity [GoAny.slice args]⟩

def OTLogger.Debug3 (l : OTLogger) (args : List GoAny) : OTLogger :=
  ⟨l.logger.Log Debug3Severity [GoAny.slice args]⟩

def OTLogger.Debug4 (l : OTLogger) (args : List GoAny) : OTLogger :=
  ⟨l.logger.Log Debug4Severity [GoAny.slice args]⟩

def OTLogger.Debugf (l : OTLogger) (format : String) (args : List GoAny) : OTLogger :=
  ⟨l.logger.Logf DebugSeverity format [GoAny.slice args]⟩

def OTLogger.Debugf2 (l : OTLogger) (format : String) (args : List GoAny) : OTLogger :=
  ⟨l.logger.Logf Debug2Severity format [GoAny.slice args]⟩

def OTLogger.Debugf3 (l : OTLogger) (format : String) (args : List GoAny) : OTLogger :=
  ⟨l.logger.Logf Debug3Severity format [GoAny.slice args]⟩

def OTLogger.Debugf4 (l : OTLogger) (format : String) (args : List GoAny) : OTLogger :=
  ⟨l.logger.Logf Debug4Severity format [GoAny.slice args]⟩

def OTLogger.Info (l : OTLogger) (args : List GoAny) : OTLogger :=
  ⟨l.logger.Log InfoSeverity [GoAny.slice args]⟩

def OTLogger.Info2 (l : OTLogger) (args : List GoAny) : OTLogger :=
  ⟨l.logger.Log Info2Severity [GoAny.slice args]⟩

def OTLogger.Info3 (l : OTLogger) (args : List GoAny) : OTLogger :=
  ⟨l.logger.Log Info3Severity [GoAny.slice args]⟩

def OTLogger.Info4 (l : OTLogger) (args : List GoAny) : OTLogger :=
  ⟨l.logger.Log Info4Severity [GoAny.slice args]⟩

def OTLogger.Infof (l : OTLogger) (format : String) (args : List GoAny) : OTLogger :=
  ⟨l.logger.Logf InfoSeverity format [GoAny.slice args]⟩

def OTLogger.Infof2 (l : OTLogger) (format : String) (args : List GoAny) : OTLogger :=
  ⟨l.logger.Logf Info2Severity format [GoAny.slice args]⟩

def OTLogger.Infof3 (l : OTLogger) (format : String) (args : List GoAny) : OTLogger :=
  ⟨l.logger.Logf Info3Severity format [GoAny.slice args]⟩

def OTLogger.Infof4 (l : OTLogger) (format : String) (args : List GoAny) : OTLogger :=
  ⟨l.logger.Logf Info4Severity format [GoAny.slice args]⟩

def OTLogger.Warn (l : OTLogger) (args : List GoAny) : OTLogger :=
  ⟨l.logger.Log WarnSeverity [GoAny.slice args]⟩

def OTLogger.Warn2 (l : OTLogger) (args : List GoAny) : OTLogger :=
  ⟨l.logger.Log Warn2Severity [GoAny.slice args]⟩

def OTLogger.Warn3 (l : OTLogger) (args : List GoAny) : OTLogger :=
  ⟨l.logger.Log Warn3Severity [GoAny.slice args]⟩

def OTLogger.Warn4 (l : OTLogger) (args : List GoAny) : OTLogger :=
  ⟨l.logger.Log Warn4Severity [GoAny.slice args]⟩

def OTLogger.Warnf (l : OTLogger) (format : String) (args : List GoAny) : OTLogger :=
  ⟨l.logger.Logf WarnSeverity format [GoAny.slice args]⟩

def OTLogger.Warnf2 (l : OTLogger) (format : String) (args : List GoAny) : OTLogger :=
  ⟨l.logger.Logf Warn2Severity format [GoAny.slice args]⟩

def OTLogger.Warnf3 (l : OTLogger) (format : String) (args : List GoAny) : OTLogger :=
  ⟨l.logger.Logf Warn3Severity format [GoAny.slice args]⟩

def OTLogger.Warnf4 (l : OTLogger) (format : String) (args : List GoAny) : OTLogger :=
  ⟨l.logger.Logf Warn4Severity format [GoAny.slice args]⟩

def OTLogger.Error (l : OTLogger) (args : List GoAny) : OTLogger :=
  ⟨l.logger.Log ErrorSeverity [GoAny.slice args]⟩

def OTLogger.Error2 (l : OTLogger) (args : List GoAny) : OTLogger :=
  ⟨l.logger.Log Error2Severity [GoAny.slice args]⟩

def OTLogger.Error3 (l : OTLogger) (args : List GoAny) : OTLogger :=
  ⟨l.logger.Log Error3Severity [GoAny.slice args]⟩

def OTLogger.Error4 (l : OTLogger) (args : List GoAny) : OTLogger :=
  ⟨l.logger.Log Error4Severity [GoAny.slice args]⟩

def OTLogger.Errorf (l : OTLogger) (format : String) (args : List GoAny) : OTLogger :=
  ⟨l.logger.Logf ErrorSeverity format [GoAny.slice args]⟩

def OTLogger.Errorf2 (l : OTLogger) (format : String) (args : List GoAny) : OTLogger :=
  ⟨l.logger.Logf Error2Severity format [GoAny.slice args]⟩

def OTLogger.Errorf3 (l : OTLogger) (format : String) (args : List GoAny) : OTLogger :=
  ⟨l.logger.Logf Error3Severity format [GoAny.slice args]⟩

def OTLogger.Errorf4 (l : OTLogger) (format : String) (args : List GoAny) : OTLogger :=
  ⟨l.logger.Logf Error4Severity format [GoAny.slice args]⟩

def OTLogger.Fatal (l : OTLogger) (args : List GoAny) : OTLogger :=
  ⟨l.logger.Log FatalSeverity [GoAny.slice args]⟩

def OTLogger.Fatal2 (l : OTLogger) (args : List GoAny) : OTLogger :=
  ⟨l.logger.Log Fatal2Severity [GoAny.slice args]⟩

def OTLogger.Fatal3 (l : OTLogger) (args : List GoAny) : OTLogger :=
  ⟨l.logger.Log Fatal3Severity [GoAny.slice args]⟩

def OTLogger.Fatal4 (l : OTLogger) (args : List GoAny) : OTLogger :=
  ⟨l.logger.Log Fatal4Severity [GoAny.slice args]⟩

def OTLogger.Fatalf (l : OTLogger) (format : String) (args : List GoAny) : OTLogger :=
  ⟨l.logger.Logf FatalSeverity format [GoAny.slice args]⟩

def OTLogger.Fatalf2 (l : OTLogger) (format : String) (args : List GoAny) : OTLogger :=
  ⟨l.logger.Logf Fatal2Severity format [GoAny.slice args]⟩

def OTLogger.Fatalf3 (l : OTLogger) (format : String) (args : List GoAny) : OTLogger :=
  ⟨l.logger.Logf Fatal3Severity format [GoAny.slice args]⟩

def OTLogger.Fatalf4 (l : OTLogger) (format : String) (args : List GoAny) : OTLogger :=
  ⟨l.logger.Logf Fatal4Severity format [GoAny.slice args]⟩

/-- The unformatted method named after band index `b` (Trace = 0, ..., Fatal = 5)
and sub-level `k` (no digit for 1, else the digit `k`). -/
def unformattedMethod : Nat → Nat → Option (OTLogger → List GoAny → OTLogger)
  | 0, 1 => some OTLogger.Trace
  | 0, 2 => some OTLogger.Trace2
  | 0, 3 => some OTLogger.Trace3
  | 0, 4 => some OTLogger.Trace4
  | 1, 1 => some OTLogger.Debug
  | 1, 2 => some OTLogger.Debug2
  | 1, 3 => some OTLogger.Debug3
  | 1, 4 => some OTLogger.Debug4
  | 2, 1 => some OTLogger.Info
  | 2, 2 => some OTLogger.Info2
  | 2, 3 => some OTLogger.Info3
  | 2, 4 => some OTLogger.Info4
  | 3, 1 => some OTLogger.Warn
  | 3, 2 => some OTLogger.Warn2
  | 3, 3 => some OTLogger.Warn3
  | 3, 4 => some OTLogger.Warn4
  | 4, 1 => some OTLogger.Error
  | 4, 2 => some OTLogger.Error2
  | 4, 3 => some OTLogger.Error3
  | 4, 4 => some OTLogger.Error4
  | 5, 1 => some OTLogger.Fatal
  | 5, 2 => some OTLogger.Fatal2
  | 5, 3 => some OTLogger.Fatal3
  | 5, 4 => some OTLogger.Fatal4
  | _, _ => none

/-- The formatted method named after band index `b` and sub-level `k`. -/
def formattedMethod : Nat → Nat → Option (OTLogger → String → List GoAny → OTLogger)
  | 0, 1 => some OTLogger.Tracef
  | 0, 2 => some OTLogger.Tracef2
  | 0, 3 => some OTLogger.Tracef3
  | 0, 4 => some OTLogger.Tracef4
  | 1, 1 => some OTLogger.Debugf
  | 1, 2 => some OTLogger.Debugf2
  | 1, 3 => some OTLogger.Debugf3
  | 1, 4 => some OTLogger.Debugf4
  | 2, 1 => some OTLogger.Infof
  | 2, 2 => some OTLogger.Infof2
  | 2, 3 => some OTLogger.Infof3
  | 2, 4 => some OTLogger.Infof4
  | 3, 1 => some OTLogger.Warnf
  | 3, 2 => some OTLogger.Warnf2
  | 3, 3 => some OTLogger.Warnf3
  | 3, 4 => some OTLogger.Warnf4
  | 4, 1 => some OTLogger.Errorf
  | 4, 2 => some OTLogger.Errorf2
  | 4, 3 => some OTLogger.Errorf3
  | 4, 4 => some OTLogger.Errorf4
  | 5, 1 => some OTLogger.Fatalf
  | 5, 2 => some OTLogger.Fatalf2
  | 5, 3 => some OTLogger.Fatalf3
  | 5, 4 => some OTLogger.Fatalf4
  | _, _ => none

/-! ## log.go: the Level variant of the same scale -/

/-- Modelled from the spec: `type Level slog.Level`, embedded like `Severity`. -/
abbrev Level : Type := Int

def TraceLevel : Level := 1
def Trace2Level : Level := 2
def Trace3Level : Level := 3
def Trace4Level : Level := 4
def DebugLevel : Level := 5
def Debug2Level : Level := 6
def Debug3Level : Level := 7
def Debug4Level : Level := 8
def InfoLevel : Level := 9
def Info2Level : Level := 10
def Info3Level : Level := 11
def Info4Level : Level := 12
def WarnLevel : Level := 13
def Warn2Level : Level := 14
def Warn3Level : Level := 15
def Warn4Level : Level := 16
def ErrorLevel : Level := 17
def Error2Level : Level := 18
def Error3Level : Level := 19
def Error4Level : Level := 20
def FatalLevel : Level := 21
def Fatal2Level : Level := 22
def Fatal3Level : Level := 23
def Fatal4Level : Level := 24

/-- The map literal `levelToStr` of log.go. -/
def levelToStr : List (Level × String) :=
  [ (TraceLevel, "TRACE"),
    (Trace2Level, "TRACE2"),
    (Trace3Level, "TRACE3"),
    (Trace4Level, "TRACE4"),
    (DebugLevel, "DEBUG"),
    (Debug2Level, "DEBUG2"),
    (Debug3Level, "DEBUG3"),
    (Debug4Level, "DEBUG4"),
    (InfoLevel, "INFO"),
    (Info2Level, "INFO2"),
    (Info3Level, "INFO3"),
    (Info4Level, "INFO4"),
    (WarnLevel, "WARN"),
    (Warn2Level, "WARN2"),
    (Warn3Level, "WARN3"),
    (Warn4Level, "WARN4"),
    (ErrorLevel, "ERROR"),
    (Error2Level, "ERROR2"),
    (Error3Level, "ERROR3"),
    (Error4Level, "ERROR4"),
    (FatalLevel, "FATAL"),
    (Fatal2Level, "FATAL2"),
    (Fatal3Level, "FATAL3"),
    (Fatal4Level, "FATAL4") ]

/-- The map literal `strToLevel` of log.go; every key carries its two
double-quote characters. -/
def strToLevel : List (String × Level) :=
  [ ("\"TRACE\"", TraceLevel),
    ("\"TRACE2\"", Trace2Level),
    ("\"TRACE3\"", Trace3Level),
    ("\"TRACE4\"", Trace4Level),
    ("\"DEBUG\"", DebugLevel),
    ("\"DEBUG2\"", Debug2Level),
    ("\"DEBUG3\"", Debug3Level),
    ("\"DEBUG4\"", Debug4Level),
    ("\"INFO\"", InfoLevel),
    ("\"INFO2\"", Info2Level),
    ("\"INFO3\"", Info3Level),
    ("\"INFO4\"", Info4Level),
    ("\"WARN\"", WarnLevel),
    ("\"WARN2\"", Warn2Level),
    ("\"WARN3\"", Warn3Level),
    ("\"WARN4\"", Warn4Level),
    ("\"ERROR\"", ErrorLevel),
    ("\"ERROR2\"", Error2Level),
    ("\"ERROR3\"", Error3Level),
    ("\"ERROR4\"", Error4Level),
    ("\"FATAL\"", FatalLevel),
    ("\"FATAL2\"", Fatal2Level),
    ("\"FATAL3\"", Fatal3Level),
    ("\"FATAL4\"", Fatal4Level) ]

/-- Go `LevelValue`: comma-ok lookup in `strToLevel`; on a miss the value 0 and
an error. -/
def LevelValue (str : String) : Level × Option String :=
  match mapIndex strToLevel str with
  | some val => (val, none)
  | none => (0, some ("invalid OpenTelemetry log level name - " ++ str))

/-- Go method `(l Level) String()`: a plain map index, with no range check. -/
def Level.String (l : Level) : String :=
  mapIndexStr levelToStr l

def Level.IsTraceLevel (l : Level) : Bool :=
  if l ≥ TraceLevel ∧ l ≤ Trace4Level then true else false

def Level.IsDebugLevel (l : Level) : Bool :=
  if l ≥ DebugLevel ∧ l < Debug4Level then true else false

def Level.IsInfoLevel (l : Level) : Bool :=
  if l ≥ InfoLevel ∧ l ≤ Info4Level then true else false

def Level.IsWarnLevel (l : Level) : Bool :=
  if l ≥ WarnLevel ∧ l ≤ Warn4Level then true else false

def Level.IsErrorLevel (l : Level) : Bool :=
  if l ≥ ErrorLevel ∧ l ≤ Error4Level then true else false

def Level.IsFatalLevel (l : Level) : Bool :=
  if l ≥ FatalLevel ∧ l ≤ Fatal4Level then true else false

/-! The forwarding methods of log.go redeclare `OTLogger` and its 48 methods;
they live in their own namespace. -/

namespace LogGo

/-- Go `type OTLogger struct { logger slog.Logger }` as declared in log.go. -/
structure OTLogger where
  logger : SlogLogger

def OTLogger.Trace (l : OTLogger) (args : List GoAny) : OTLogger :=
  ⟨l.logger.Log TraceLevel [GoAny.slice args]⟩

def OTLogger.Trace2 (l : OTLogger) (args : List GoAny) : OTLogger :=
  ⟨l.logger.Log Trace2Level [GoAny.slice args]⟩

def OTLogger.Trace3 (l : OTLogger) (args : List GoAny) : OTLogger :=
  ⟨l.logger.Log Trace3Level [GoAny.slice args]⟩

def OTLogger.Trace4 (l : OTLogger) (args : List GoAny) : OTLogger :=
  ⟨l.logger.Log Trace4Level [GoAny.slice args]⟩

def OTLogger.Tracef (l : OTLogger) (format : String) (args : List GoAny) : OTLogger :=
  ⟨l.logger.Logf TraceLevel format [GoAny.slice args]⟩

def OTLogger.Tracef2 (l : OTLogger) (format : String) (args : List GoAny) : OTLogger :=
  ⟨l.logger.Logf Trace2Level format [GoAny.slice args]⟩

def OTLogger.Tracef3 (l : OTLogger) (format : String) (args : List GoAny) : OTLogger :=
  ⟨l.logger.Logf Trace3Level format [GoAny.slice args]⟩

def OTLogger.Tracef4 (l : OTLogger) (format : String) (args : List GoAny) : OTLogger :=
  ⟨l.logger.Logf Trace4Level format [GoAny.slice args]⟩

def OTLogger.Debug (l : OTLogger) (args : List GoAny) : OTLogger :=
  ⟨l.logger.Log DebugLevel [GoAny.slice args]⟩

def OTLogger.Debug2 (l : OTLogger) (args : List GoAny) : OTLogger :=
  ⟨l.logger.Log Debug2Level [GoAny.slice args]⟩

def OTLogger.Debug3 (l : OTLogger) (args : List GoAny) : OTLogger :=
  ⟨l.logger.Log Debug3Level [GoAny.slice args]⟩

def OTLogger.Debug4 (l : OTLogger) (args : List GoAny) : OTLogger :=
  ⟨l.logger.Log Debug4Level [GoAny.slice args]⟩

def OTLogger.Debugf (l : OTLogger) (format : String) (args : List GoAny) : OTLogger :=
  ⟨l.logger.Logf DebugLevel format [GoAny.slice args]⟩

def OTLogger.Debugf2 (l : OTLogger) (format : String) (args : List GoAny) : OTLogger :=
  ⟨l.logger.Logf Debug2Level format [GoAny.slice args]⟩

def OTLogger.Debugf3 (l : OTLogger) (format : String) (args : List GoAny) : OTLogger :=
  ⟨l.logger.Logf Debug3Level format [GoAny.slice args]⟩

def OTLogger.Debugf4 (l : OTLogger) (format : String) (args : List GoAny) : OTLogger :=
  ⟨l.logger.Logf Debug4Level format [GoAny.slice args]⟩

def OTLogger.Info (l : OTLogger) (args : List GoAny) : OTLogger :=
  ⟨l.logger.Log InfoLevel [GoAny.slice args]⟩

def OTLogger.Info2 (l : OTLogger) (args : List GoAny) : OTLogger :=
  ⟨l.logger.Log Info2Level [GoAny.slice args]⟩

def OTLogger.Info3 (l : OTLogger) (args : List GoAny) : OTLogger :=
  ⟨l.logger.Log Info3Level [GoAny.slice args]⟩

def OTLogger.Info4 (l : OTLogger) (args : List GoAny) : OTLogger :=
  ⟨l.logger.Log Info4Level [GoAny.slice args]⟩

def OTLogger.Infof (l : OTLogger) (format : String) (args : List GoAny) : OTLogger :=
  ⟨l.logger.Logf InfoLevel format [GoAny.slice args]⟩

def OTLogger.Infof2 (l : OTLogger) (format : String) (args : List GoAny) : OTLogger :=
  ⟨l.logger.Logf Info2Level format [GoAny.slice args]⟩

def OTLogger.Infof3 (l : OTLogger) (format : String) (args : List GoAny) : OTLogger :=
  ⟨l.logger.Logf Info3Level format [GoAny.slice args]⟩

def OTLogger.Infof4 (l : OTLogger) (format : String) (args : List GoAny) : OTLogger :=
  ⟨l.logger.Logf Info4Level format [GoAny.slice args]⟩

def OTLogger.Warn (l : OTLogger) (args : List GoAny) : OTLogger :=
  ⟨l.logger.Log WarnLevel [GoAny.slice args]⟩

def OTLogger.Warn2 (l : OTLogger) (args : List GoAny) : OTLogger :=
  ⟨l.logger.Log Warn2Level [GoAny.slice args]⟩

def OTLogger.Warn3 (l : OTLogger) (args : List GoAny) : OTLogger :=
  ⟨l.logger.Log Warn3Level [GoAny.slice args]⟩

def OTLogger.Warn4 (l : OTLogger) (args : List GoAny) : OTLogger :=
  ⟨l.logger.Log Warn4Level [GoAny.slice args]⟩

def OTLogger.Warnf (l : OTLogger) (format : String) (args : List GoAny) : OTLogger :=
  ⟨l.logger.Logf WarnLevel format [GoAny.slice args]⟩

def OTLogger.Warnf2 (l : OTLogger) (format : String) (args : List GoAny) : OTLogger :=
  ⟨l.logger.Logf Warn2Level format [GoAny.slice args]⟩

def OTLogger.Warnf3 (l : OTLogger) (format : String) (args : List GoAny) : OTLogger :=
  ⟨l.logger.Logf Warn3Level format [GoAny.slice args]⟩

def OTLogger.Warnf4 (l : OTLogger) (format : String) (args : List GoAny) : OTLogger :=
  ⟨l.logger.Logf Warn4Level format [GoAny.slice args]⟩

def OTLogger.Error (l : OTLogger) (args : List GoAny) : OTLogger :=
  ⟨l.logger.Log ErrorLevel [GoAny.slice args]⟩

def OTLogger.Error2 (l : OTLogger) (args : List GoAny) : OTLogger :=
  ⟨l.logger.Log Error2Level [GoAny.slice args]⟩

def OTLogger.Error3 (l : OTLogger) (args : List GoAny) : OTLogger :=
  ⟨l.logger.Log Error3Level [GoAny.slice args]⟩

def OTLogger.Error4 (l : OTLogger) (args : List GoAny) : OTLogger :=
  ⟨l.logger.Log Error4Level [GoAny.slice args]⟩

def OTLogger.Errorf (l : OTLogger) (format : String) (args : List GoAny) : OTLogger :=
  ⟨l.logger.Logf ErrorLevel format [GoAny.slice args]⟩

def OTLogger.Errorf2 (l : OTLogger) (format : String) (args : List GoAny) : OTLogger :=
  ⟨l.logger.Logf Error2Level format [GoAny.slice args]⟩

def OTLogger.Errorf3 (l : OTLogger) (format : String) (args : List GoAny) : OTLogger :=
  ⟨l.logger.Logf Error3Level format [GoAny.slice args]⟩

def OTLogger.Errorf4 (l : OTLogger) (format : String) (args : List GoAny) : OTLogger :=
  ⟨l.logger.Logf Error4Level format [GoAny.slice args]⟩

def OTLogger.Fatal (l : OTLogger) (args : List GoAny) : OTLogger :=
  ⟨l.logger.Log FatalLevel [GoAny.slice args]⟩

def OTLogger.Fatal2 (l : OTLogger) (args : List GoAny) : OTLogger :=
  ⟨l.logger.Log Fatal2Level [GoAny.slice args]⟩

def OTLogger.Fatal3 (l : OTLogger) (args : List GoAny) : OTLogger :=
  ⟨l.logger.Log Fatal3Level [GoAny.slice args]⟩

def OTLogger.Fatal4 (l : OTLogger) (args : List GoAny) : OTLogger :=
  ⟨l.logger.Log Fatal4Level [GoAny.slice args]⟩

def OTLogger.Fatalf (l : OTLogger) (format : String) (args : List GoAny) : OTLogger :=
  ⟨l.logger.Logf FatalLevel format [GoAny.slice args]⟩

def OTLogger.Fatalf2 (l : OTLogger) (format : String) (args : List GoAny) : OTLogger :=
  ⟨l.logger.Logf Fatal2Level format [GoAny.slice args]⟩

def OTLogger.Fatalf3 (l : OTLogger) (format : String) (args : List GoAny) : OTLogger :=
  ⟨l.logger.Logf Fatal3Level format [GoAny.slice args]⟩

def OTLogger.Fatalf4 (l : OTLogger) (format : String) (args : List GoAny) : OTLogger :=
  ⟨l.logger.Logf Fatal4Level format [GoAny.slice args]⟩

/-- The unformatted method named after band index `b` (Trace = 0, ..., Fatal = 5)
and sub-level `k` (no digit for 1, else the digit `k`). -/
def unformattedMethod : Nat → Nat → Option (OTLogger → List GoAny → OTLogger)
  | 0, 1 => some OTLogger.Trace
  | 0, 2 => some OTLogger.Trace2
  | 0, 3 => some OTLogger.Trace3
  | 0, 4 => some OTLogger.Trace4
  | 1, 1 => some OTLogger.Debug
  | 1, 2 => some OTLogger.Debug2
  | 1, 3 => some OTLogger.Debug3
  | 1, 4 => some OTLogger.Debug4
  | 2, 1 => some OTLogger.Info
  | 2, 2 => some OTLogger.Info2
  | 2, 3 => some OTLogger.Info3
  | 2, 4 => some OTLogger.Info4
  | 3, 1 => some OTLogger.Warn
  | 3, 2 => some OTLogger.Warn2
  | 3, 3 => some OTLogger.Warn3
  | 3, 4 => some OTLogger.Warn4
  | 4, 1 => some OTLogger.Error
  | 4, 2 => some OTLogger.Error2
  | 4, 3 => some OTLogger.Error3
  | 4, 4 => some OTLogger.Error4
  | 5, 1 => some OTLogger.Fatal
  | 5, 2 => some OTLogger.Fatal2
  | 5, 3 => some OTLogger.Fatal3
  | 5, 4 => some OTLogger.Fatal4
  | _, _ => none

/-- The formatted method named after band index `b` and sub-level `k`. -/
def formattedMethod : Nat → Nat → Option (OTLogger → String → List GoAny → OTLogger)
  | 0, 1 => some OTLogger.Tracef
  | 0, 2 => some OTLogger.Tracef2
  | 0, 3 => some OTLogger.Tracef3
  | 0, 4 => some OTLogger.Tracef4
  | 1, 1 => some OTLogger.Debugf
  | 1, 2 => some OTLogger.Debugf2
  | 1, 3 => some OTLogger.Debugf3
  | 1, 4 => some OTLogger.Debugf4
  | 2, 1 => some OTLogger.Infof
  | 2, 2 => some OTLogger.Infof2
  | 2, 3 => some OTLogger.Infof3
  | 2, 4 => some OTLogger.Infof4
  | 3, 1 => some OTLogger.Warnf
  | 3, 2 => some OTLogger.Warnf2
  | 3, 3 => some OTLogger.Warnf3
  | 3, 4 => some OTLogger.Warnf4
  | 4, 1 => some OTLogger.Errorf
  | 4, 2 => some OTLogger.Errorf2
  | 4, 3 => some OTLogger.Errorf3
  | 4, 4 => some OTLogger.Errorf4
  | 5, 1 => some OTLogger.Fatalf
  | 5, 2 => some OTLogger.Fatalf2
  | 5, 3 => some OTLogger.Fatalf3
  | 5, 4 => some OTLogger.Fatalf4
  | _, _ => none

end LogGo

/-! ## init.go and record.go -/

/-- Go `debug.Module`, reduced to the field the package reads. -/
structure Module where
  Version : String

/-- Go `debug.BuildInfo`, reduced to the field the package reads. -/
structure BuildInfo where
  Main : Module

/-- Go `func init()`: `readBuildInfo` is the result of `debug.ReadBuildInfo()`
(`none` when `ok` is false). A panic is `Except.error` with the panic value,
a normal return is the new value of the package variable `moduleVersion`. -/
def init (readBuildInfo : Option BuildInfo) : Except String String :=
  match readBuildInfo with
  | none => Except.error "unable to retrieve module version number!"
  | some bi => Except.ok bi.Main.Version

structure TelemetrySDK where
  TelemetrySDKname : String
  TelemetrySDKlanguage : String
  TelemetrySDKversion : String

/-- Go `newTelemetrySDK`, reading the package variable `moduleVersion`. -/
def newTelemetrySDK (moduleVersion : String) : TelemetrySDK :=
  ⟨"otlog", "go", moduleVersion⟩

/-! ## Specification-side vocabulary -/

/-- One double-quote character on each side of a name. -/
def quoted (name : String) : String :=
  "\"" ++ name ++ "\""

/-- The six band names in band order. -/
def bandNames : List String :=
  ["TRACE", "DEBUG", "INFO", "WARN", "ERROR", "FATAL"]

/-- Canonical name as the spec words it: the band name at index `(v-1)/4`,
followed by nothing for the first sub-level and by the decimal digit
`(v-1) mod 4 + 1` for the others. -/
def canonicalName (v : Int) : String :=
  bandNames.getD ((v - 1) / 4).toNat "" ++
    (if (v - 1) % 4 = 0 then "" else fmtD ((v - 1) % 4 + 1))

/-- The band predicate of logger.go with band index `i` in the band order
Trace = 0, Debug = 1, Info = 2, Warn = 3, Error = 4, Fatal = 5; no predicate
has any other index. -/
def bandPredicate : Nat → Severity → Bool
  | 0 => Severity.IsTraceSeverity
  | 1 => Severity.IsDebugSeverity
  | 2 => Severity.IsInfoSeverity
  | 3 => Severity.IsWarnSeverity
  | 4 => Severity.IsErrorSeverity
  | 5 => Severity.IsFatalSeverity
  | _ => fun _ => false

end Otlog

/-! ## Auxiliary facts about map literals and strings -/

namespace Otlog

/-- Looking a key up in an association list either finds a pair of the list
with that key, or no pair of the list has that key. -/
theorem lookup_hit_or_miss {ν : Type} (m : List (String × ν)) (s : String) :
    (∃ v, (s, v) ∈ m ∧ mapIndex m s = some v) ∨
      ((∀ p ∈ m, p.1 ≠ s) ∧ mapIndex m s = none) := by
  induction m with
  | nil => right; simp [mapIndex]
  | cons p m ih =>
    obtain ⟨k, w⟩ := p
    by_cases hk : s = k
    · subst hk
      left
      exact ⟨w, by simp, by simp [mapIndex, List.lookup]⟩
    · have hb : (s == k) = false := by simpa using hk
      rcases ih with ⟨v, hv, hl⟩ | ⟨hn, hl⟩
      · left
        refine ⟨v, List.mem_cons_of_mem _ hv, ?_⟩
        simpa [mapIndex, List.lookup, hb] using hl
      · right
        refine ⟨?_, ?_⟩
        · intro q hq
          rcases List.mem_cons.mp hq with rfl | hq
          · exact fun h => hk h.symm
          · exact hn q hq
        · simpa [mapIndex, List.lookup, hb] using hl

/-- Length of the invalid-severity placeholder: the fixed text has 47
characters around the decimal text. -/
theorem placeholder_length (d : String) :
    ("**INVALID OpenTelemetry log Severity value - " ++ d ++ "**").length = 47 + d.length := by
  have h1 : ("**INVALID OpenTelemetry log Severity value - ").length = 45 := by decide
  have h2 : ("**").length = 2 := by decide
  rw [String.length_append, String.length_append, h1, h2]
  omega

end Otlog

/-! ## The Severity scale and its textual encoding -/

namespace Otlog

/-- C1: for every severity `v` with `1 ≤ v ≤ 24`, `SeverityValue` applied to
the name returned by `String`, surrounded by one double-quote character on each
side, returns `v` with a nil error. -/
theorem severityValue_string_roundtrip (v : Severity) (h1 : 1 ≤ v) (h24 : v ≤ 24) :
    SeverityValue (quoted (Severity.String v)) = (v, none) := by
  interval_cases v <;> decide

theorem severityValue_string_roundtrip_witness :
    SeverityValue (quoted (Severity.String 15)) = (15, none) :=
  severityValue_string_roundtrip 15 (by decide) (by decide)

/-- C2: `SeverityValue s` succeeds exactly when `s` is the double-quoted
canonical name of a severity in `[1,24]`, and then returns that severity; for
every other string it returns the value 0 with a non-nil error. Wrong case,
the bare name, surrounding whitespace and the empty string all fail, and
`SeverityValue "\"INFO\""` is `(9, nil)`. -/
theorem severityValue_exact_match (s : String) :
    ((∃ v : Severity, 1 ≤ v ∧ v ≤ 24 ∧ s = quoted (Severity.String v) ∧
          SeverityValue s = (v, none)) ∨
      ((∀ v : Severity, 1 ≤ v → v ≤ 24 → s ≠ quoted (Severity.String v)) ∧
          SeverityValue s = (0, some ("invalid OpenTelemetry log Severity name - " ++ s)))) ∧
    ((SeverityValue s).2 = none ↔
      ∃ v : Severity, 1 ≤ v ∧ v ≤ 24 ∧ s = quoted (Severity.String v)) ∧
    SeverityValue "\"INFO\"" = (9, none) ∧
    SeverityValue "\"info\"" =
      (0, some "invalid OpenTelemetry log Severity name - \"info\"") ∧
    SeverityValue "INFO" = (0, some "invalid OpenTelemetry log Severity name - INFO") ∧
    SeverityValue " \"INFO\"" =
      (0, some "invalid OpenTelemetry log Severity name -  \"INFO\"") ∧
    SeverityValue "\"INFO\" " =
      (0, some "invalid OpenTelemetry log Severity name - \"INFO\" ") ∧
    SeverityValue "" = (0, some "invalid OpenTelemetry log Severity name - ") := by
  have dich :
      (∃ v : Severity, 1 ≤ v ∧ v ≤ 24 ∧ s = quoted (Severity.String v) ∧
          SeverityValue s = (v, none)) ∨
      ((∀ v : Severity, 1 ≤ v → v ≤ 24 → s ≠ quoted (Severity.String v)) ∧
          SeverityValue s = (0, some ("invalid OpenTelemetry log Severity name - " ++ s))) := by
    rcases lookup_hit_or_miss strToSeverity s with ⟨v, hv, hl⟩ | ⟨hn, hl⟩
    · left
      refine ⟨v, ?_⟩
      have hval : SeverityValue s = (v, none) := by simp [SeverityValue, hl]
      refine ⟨?_, ?_, ?_, hval⟩ <;>
        (simp only [strToSeverity, List.mem_cons, List.mem_singleton, Prod.mk.injEq,
            List.mem_nil_iff, or_false] at hv
         rcases hv with h | h | h | h | h | h | h | h | h | h | h | h | h | h | h | h | h | h |
            h | h | h | h | h | h <;>
          (obtain ⟨hs, hw⟩ := h; subst hs; subst hw; decide))
    · right
      refine ⟨?_, by simp [SeverityValue, hl]⟩
      intro v h1 h24 heq
      have hmem : (quoted (Severity.String v), v) ∈ strToSeverity := by
        interval_cases v <;> decide
      exact hn _ hmem heq.symm
  refine ⟨dich, ?_, by decide, by decide, by decide, by decide, by decide, by decide⟩
  constructor
  · intro hnone
    rcases dich with ⟨v, h1, h24, hs, _⟩ | ⟨_, herr⟩
    · exact ⟨v, h1, h24, hs⟩
    · rw [herr] at hnone
      cases hnone
  · rintro ⟨v, h1, h24, hs⟩
    subst hs
    clear dich
    interval_cases v <;> decide

end Otlog

namespace Otlog

/-- C3: for every severity `v` with `1 ≤ v ≤ 24`, `v.String()` is the
upper-case band name at index `(v-1)/4` in the order TRACE, DEBUG, INFO, WARN,
ERROR, FATAL, followed by nothing when `(v-1) mod 4 = 0` and otherwise by the
decimal digit `(v-1) mod 4 + 1`; in particular `Severity(20).String()` is
`"ERROR4"`. -/
theorem severity_string_band_and_digit (v : Severity) (h1 : 1 ≤ v) (h24 : v ≤ 24) :
    Severity.String v = canonicalName v ∧
      0 ≤ (v - 1) / 4 ∧ (v - 1) / 4 < 6 ∧
      ((v - 1) % 4 ≠ 0 → 2 ≤ (v - 1) % 4 + 1 ∧ (v - 1) % 4 + 1 ≤ 4) ∧
      Severity.String 20 = "ERROR4" := by
  refine ⟨?_, ?_, ?_, ?_, by decide⟩ <;> interval_cases v <;> decide

theorem severity_string_band_and_digit_witness :
    Severity.String 7 = canonicalName 7 ∧
      0 ≤ ((7 : Int) - 1) / 4 ∧ ((7 : Int) - 1) / 4 < 6 ∧
      (((7 : Int) - 1) % 4 ≠ 0 → 2 ≤ ((7 : Int) - 1) % 4 + 1 ∧ ((7 : Int) - 1) % 4 + 1 ≤ 4) ∧
      Severity.String 20 = "ERROR4" :=
  severity_string_band_and_digit 7 (by decide) (by decide)

/-- C4: for every severity `v` outside `[1,24]`, `v.String()` returns the
placeholder `**INVALID OpenTelemetry log Severity value - <v>**`, which
contains the decimal text of `v` and differs from the name of every severity
in `[1,24]`. -/
theorem severity_string_out_of_range (v : Severity) (h : v < 1 ∨ 24 < v) :
    Severity.String v =
        "**INVALID OpenTelemetry log Severity value - " ++ fmtD v ++ "**" ∧
      (∃ pre post : String, Severity.String v = pre ++ fmtD v ++ post) ∧
      ∀ w : Severity, 1 ≤ w → w ≤ 24 → Severity.String v ≠ Severity.String w := by
  have hs : Severity.String v =
      "**INVALID OpenTelemetry log Severity value - " ++ fmtD v ++ "**" := by
    have hc : v < TraceSeverity ∨ v > Fatal4Severity := by
      simpa [TraceSeverity, Fatal4Severity] using h
    simp [Severity.String, hc]
  refine ⟨hs, ⟨_, _, hs⟩, ?_⟩
  intro w h1 h24 heq
  have hlen : (Severity.String w).length = 47 + (fmtD v).length := by
    rw [← heq, hs, placeholder_length]
  have hshort : (Severity.String w).length ≤ 6 := by
    interval_cases w <;> decide
  omega

theorem severity_string_out_of_range_witness :
    Severity.String 25 =
        "**INVALID OpenTelemetry log Severity value - " ++ fmtD 25 ++ "**" ∧
      (∃ pre post : String, Severity.String 25 = pre ++ fmtD 25 ++ post) ∧
      ∀ w : Severity, 1 ≤ w → w ≤ 24 → Severity.String 25 ≠ Severity.String w :=
  severity_string_out_of_range 25 (Or.inr (by decide))

/-! ## Band predicates -/

/-- C5: for every integer severity `v`, `IsTraceSeverity` holds iff
`1 ≤ v ≤ 4`, `IsInfoSeverity` iff `9 ≤ v ≤ 12`, `IsWarnSeverity` iff
`13 ≤ v ≤ 16`, `IsErrorSeverity` iff `17 ≤ v ≤ 20` and `IsFatalSeverity` iff
`21 ≤ v ≤ 24`. -/
theorem band_predicates_inclusive_ranges (v : Severity) :
    (Severity.IsTraceSeverity v = true ↔ 1 ≤ v ∧ v ≤ 4) ∧
      (Severity.IsInfoSeverity v = true ↔ 9 ≤ v ∧ v ≤ 12) ∧
      (Severity.IsWarnSeverity v = true ↔ 13 ≤ v ∧ v ≤ 16) ∧
      (Severity.IsErrorSeverity v = true ↔ 17 ≤ v ∧ v ≤ 20) ∧
      (Severity.IsFatalSeverity v = true ↔ 21 ≤ v ∧ v ≤ 24) := by
  simp [Severity.IsTraceSeverity, Severity.IsInfoSeverity, Severity.IsWarnSeverity,
    Severity.IsErrorSeverity, Severity.IsFatalSeverity, TraceSeverity, Trace4Severity,
    InfoSeverity, Info4Severity, WarnSeverity, Warn4Severity, ErrorSeverity, Error4Severity,
    FatalSeverity, Fatal4Severity]

/-- C6: at the fourth Debug sub-level, `Debug4Severity = 8`, which lies in the
Debug band `5 ≤ v ≤ 8` and is named `DEBUG4` by the code's own table,
`IsDebugSeverity` returns false, while every other band predicate accepts the
fourth sub-level of its band. -/
theorem isDebugSeverity_rejects_debug4 :
    Severity.IsDebugSeverity Debug4Severity = false ∧
      (5 ≤ Debug4Severity ∧ Debug4Severity ≤ 8) ∧
      Severity.String Debug4Severity = "DEBUG4" ∧
      Severity.IsTraceSeverity Trace4Severity = true ∧
      Severity.IsInfoSeverity Info4Severity = true ∧
      Severity.IsWarnSeverity Warn4Severity = true ∧
      Severity.IsErrorSeverity Error4Severity = true ∧
      Severity.IsFatalSeverity Fatal4Severity = true := by
  decide

/-- C7: for every integer severity `v`, `IsDebugSeverity v` holds iff
`5 ≤ v < 8`; it is false for `Debug4Severity`, and within `[1,24]` the value 8
is the only one that no band predicate accepts. -/
theorem isDebugSeverity_strict_upper_bound (v : Severity) :
    (Severity.IsDebugSeverity v = true ↔ 5 ≤ v ∧ v < 8) ∧
      Severity.IsDebugSeverity Debug4Severity = false ∧
      (1 ≤ v → v ≤ 24 →
        ((Severity.IsTraceSeverity v = false ∧ Severity.IsDebugSeverity v = false ∧
            Severity.IsInfoSeverity v = false ∧ Severity.IsWarnSeverity v = false ∧
            Severity.IsErrorSeverity v = false ∧ Severity.IsFatalSeverity v = false) ↔
          v = 8)) := by
  refine ⟨?_, by decide, ?_⟩
  · simp [Severity.IsDebugSeverity, DebugSeverity, Debug4Severity]
  · intro h1 h24
    interval_cases v <;> decide

/-- C8: for every integer severity `v`, zero, negative and above 24 included,
`ShouldNotIgnore v` is true iff `v ≥ 17`. -/
theorem shouldNotIgnore_iff (v : Severity) :
    Severity.ShouldNotIgnore v = true ↔ v ≥ 17 := by
  simp [Severity.ShouldNotIgnore, ErrorSeverity]

end Otlog

/-! ## Forwarding methods -/

namespace Otlog

/-- A slice wrapped as the single element of a new slice is never the slice
itself. -/
theorem wrapped_slice_ne (args : List GoAny) : [GoAny.slice args] ≠ args := by
  intro h
  have hsz := congrArg sizeOf h
  simp at hsz
  omega

/-- Every forwarding method of logger.go hands the engine a one-element
variadic sequence whose element is the caller's whole argument slice. -/
theorem forwarded_args_are_wrapped (b k : Nat) (hb : b < 6) (hk1 : 1 ≤ k) (hk4 : k ≤ 4) :
    (∃ m, unformattedMethod b k = some m ∧ ∀ (l : OTLogger) (args : List GoAny),
        (m l args).logger.calls =
          l.logger.calls ++ [EngineCall.Log ((4 * b + k : Nat) : Int) [GoAny.slice args]]) ∧
    (∃ m, formattedMethod b k = some m ∧
      ∀ (l : OTLogger) (format : String) (args : List GoAny),
        (m l format args).logger.calls =
          l.logger.calls ++
            [EngineCall.Logf ((4 * b + k : Nat) : Int) format [GoAny.slice args]]) := by
  interval_cases b <;> interval_cases k <;>
    exact ⟨⟨_, rfl, fun _ _ => rfl⟩, ⟨_, rfl, fun _ _ _ => rfl⟩⟩

/-- C9: the forwarding method for band index `b` (Trace = 0, ..., Fatal = 5)
and sub-level `k` in `1..4` makes exactly one call to the engine, with level
`4*b + k`; an unformatted method calls `Log`, a formatted method calls `Logf`
with the caller's format string unchanged. This holds for the methods of
logger.go and for those of log.go. In particular `Warnf3("value=%d", 42)`
calls `Logf` once with level 15 and format `"value=%d"`. -/
theorem forwarding_one_call_with_named_level (b k : Nat) (hb : b < 6) (hk1 : 1 ≤ k)
    (hk4 : k ≤ 4) :
    (∃ m, unformattedMethod b k = some m ∧ ∀ (l : OTLogger) (args : List GoAny),
        ∃ recv, (m l args).logger.calls =
          l.logger.calls ++ [EngineCall.Log ((4 * b + k : Nat) : Int) recv]) ∧
    (∃ m, formattedMethod b k = some m ∧
      ∀ (l : OTLogger) (format : String) (args : List GoAny),
        ∃ recv, (m l format args).logger.calls =
          l.logger.calls ++ [EngineCall.Logf ((4 * b + k : Nat) : Int) format recv]) ∧
    (∃ m, LogGo.unformattedMethod b k = some m ∧
      ∀ (l : LogGo.OTLogger) (args : List GoAny),
        ∃ recv, (m l args).logger.calls =
          l.logger.calls ++ [EngineCall.Log ((4 * b + k : Nat) : Int) recv]) ∧
    (∃ m, LogGo.formattedMethod b k = some m ∧
      ∀ (l : LogGo.OTLogger) (format : String) (args : List GoAny),
        ∃ recv, (m l format args).logger.calls =
          l.logger.calls ++ [EngineCall.Logf ((4 * b + k : Nat) : Int) format recv]) ∧
    (∀ l : OTLogger, ∃ recv, (OTLogger.Warnf3 l "value=%d" [GoAny.int 42]).logger.calls =
        l.logger.calls ++ [EngineCall.Logf 15 "value=%d" recv]) ∧
    (∀ l : LogGo.OTLogger,
      ∃ recv, (LogGo.OTLogger.Warnf3 l "value=%d" [GoAny.int 42]).logger.calls =
        l.logger.calls ++ [EngineCall.Logf 15 "value=%d" recv]) := by
  refine ⟨?_, ?_, ?_, ?_, fun _ => ⟨_, rfl⟩, fun _ => ⟨_, rfl⟩⟩
  · interval_cases b <;> interval_cases k <;> exact ⟨_, rfl, fun _ _ => ⟨_, rfl⟩⟩
  · interval_cases b <;> interval_cases k <;> exact ⟨_, rfl, fun _ _ _ => ⟨_, rfl⟩⟩
  · interval_cases b <;> interval_cases k <;> exact ⟨_, rfl, fun _ _ => ⟨_, rfl⟩⟩
  · interval_cases b <;> interval_cases k <;> exact ⟨_, rfl, fun _ _ _ => ⟨_, rfl⟩⟩

theorem forwarding_one_call_with_named_level_witness :
    formattedMethod 3 3 = some OTLogger.Warnf3 ∧
      ∀ l : OTLogger, ∃ recv,
        (OTLogger.Warnf3 l "value=%d" [GoAny.int 42]).logger.calls =
          l.logger.calls ++ [EngineCall.Logf 15 "value=%d" recv] :=
  ⟨rfl, (forwarding_one_call_with_named_level 3 3 (by decide) (by decide) (by decide)).2.2.2.2.1⟩

/-- C10: the caller's arguments do not reach the engine unchanged. `Trace("a", "b")`
makes the engine receive a variadic sequence of length 1 whose only element is
the slice `["a", "b"]`; `Trace()` makes it receive one element, the empty
slice, where the caller passed none; `Warnf3("value=%d", 42)` makes `Logf`
receive the one-element sequence `[[42]]`. -/
theorem forwarding_wraps_variadic_args :
    (OTLogger.Trace ⟨⟨[]⟩⟩ [GoAny.str "a", GoAny.str "b"]).logger.calls =
        [EngineCall.Log 1 [GoAny.slice [GoAny.str "a", GoAny.str "b"]]] ∧
      (OTLogger.Trace ⟨⟨[]⟩⟩ [GoAny.str "a", GoAny.str "b"]).logger.calls.map
          EngineCall.received ≠ [[GoAny.str "a", GoAny.str "b"]] ∧
      (OTLogger.Trace ⟨⟨[]⟩⟩ [GoAny.str "a", GoAny.str "b"]).logger.calls.map
          (fun c => c.received.length) = [1] ∧
      (OTLogger.Trace ⟨⟨[]⟩⟩ []).logger.calls = [EngineCall.Log 1 [GoAny.slice []]] ∧
      (OTLogger.Warnf3 ⟨⟨[]⟩⟩ "value=%d" [GoAny.int 42]).logger.calls =
        [EngineCall.Logf 15 "value=%d" [GoAny.slice [GoAny.int 42]]] ∧
      (LogGo.OTLogger.Trace ⟨⟨[]⟩⟩ [GoAny.str "a", GoAny.str "b"]).logger.calls =
        [EngineCall.Log 1 [GoAny.slice [GoAny.str "a", GoAny.str "b"]]] := by
  refine ⟨rfl, ?_, rfl, rfl, rfl, rfl⟩
  intro h
  have hlen := congrArg (fun xs => xs.map List.length) h
  revert hlen
  decide

end Otlog

/-! ## Ranges of the band predicates -/

namespace Otlog

theorem isTraceSeverity_iff (v : Int) :
    Severity.IsTraceSeverity v = true ↔ 1 ≤ v ∧ v ≤ 4 := by
  simp [Severity.IsTraceSeverity, TraceSeverity, Trace4Severity]

theorem isDebugSeverity_iff (v : Int) :
    Severity.IsDebugSeverity v = true ↔ 5 ≤ v ∧ v < 8 := by
  simp [Severity.IsDebugSeverity, DebugSeverity, Debug4Severity]

theorem isInfoSeverity_iff (v : Int) :
    Severity.IsInfoSeverity v = true ↔ 9 ≤ v ∧ v ≤ 12 := by
  simp [Severity.IsInfoSeverity, InfoSeverity, Info4Severity]

theorem isWarnSeverity_iff (v : Int) :
    Severity.IsWarnSeverity v = true ↔ 13 ≤ v ∧ v ≤ 16 := by
  simp [Severity.IsWarnSeverity, WarnSeverity, Warn4Severity]

theorem isErrorSeverity_iff (v : Int) :
    Severity.IsErrorSeverity v = true ↔ 17 ≤ v ∧ v ≤ 20 := by
  simp [Severity.IsErrorSeverity, ErrorSeverity, Error4Severity]

theorem isFatalSeverity_iff (v : Int) :
    Severity.IsFatalSeverity v = true ↔ 21 ≤ v ∧ v ≤ 24 := by
  simp [Severity.IsFatalSeverity, FatalSeverity, Fatal4Severity]

/-- The values accepted by the band predicate with index `i`: a window of
width 4 starting at `4*i + 1`, except that the Debug window has width 3. -/
theorem bandPredicate_iff (i : Nat) (v : Int) :
    bandPredicate i v = true ↔
      i < 6 ∧ 4 * (i : Int) + 1 ≤ v ∧ v ≤ 4 * (i : Int) + 4 ∧ (i = 1 → v < 8) := by
  match i with
  | 0 => simp only [bandPredicate, isTraceSeverity_iff]; omega
  | 1 =>
    simp only [bandPredicate, isDebugSeverity_iff]
    constructor
    · rintro ⟨h5, h8⟩
      exact ⟨by omega, by omega, by omega, fun _ => h8⟩
    · rintro ⟨_, h5, _, h8⟩
      exact ⟨by omega, h8 trivial⟩
  | 2 => simp only [bandPredicate, isInfoSeverity_iff]; omega
  | 3 => simp only [bandPredicate, isWarnSeverity_iff]; omega
  | 4 => simp only [bandPredicate, isErrorSeverity_iff]; omega
  | 5 => simp only [bandPredicate, isFatalSeverity_iff]; omega
  | n + 6 => simp [bandPredicate]

end Otlog

namespace Otlog

theorem shouldNotIgnore_eq_true_iff (v : Int) :
    Severity.ShouldNotIgnore v = true ↔ 17 ≤ v := by
  simp [Severity.ShouldNotIgnore, ErrorSeverity]

/-- Outside `[1,24]` no band predicate of logger.go accepts the value. -/
theorem band_predicates_false_outside (v : Int) (h : v < 1 ∨ 24 < v) :
    Severity.IsTraceSeverity v = false ∧ Severity.IsDebugSeverity v = false ∧
      Severity.IsInfoSeverity v = false ∧ Severity.IsWarnSeverity v = false ∧
      Severity.IsErrorSeverity v = false ∧ Severity.IsFatalSeverity v = false := by
  simp only [Bool.eq_false_iff, ne_eq, isTraceSeverity_iff, isDebugSeverity_iff,
    isInfoSeverity_iff, isWarnSeverity_iff, isErrorSeverity_iff, isFatalSeverity_iff]
  omega

/-- A key different from every key of a map literal is a miss. -/
theorem lookup_miss_of_keys_ne {ν : Type} (m : List (Int × ν)) (k : Int)
    (h : ∀ p ∈ m, p.1 ≠ k) : mapIndex m k = none := by
  induction m with
  | nil => simp [mapIndex]
  | cons p m ih =>
    obtain ⟨q, w⟩ := p
    have hq : q ≠ k := h (q, w) (by simp)
    have hb : (k == q) = false := by simpa using fun e : k = q => hq e.symm
    have ih2 := ih (fun p hp => h p (List.mem_cons_of_mem _ hp))
    simpa [mapIndex, List.lookup, hb] using ih2

/-- Outside `[1,24]` the method `String` of log.go returns the empty string:
the key is missing from `levelToStr` and the index yields the zero value. -/
theorem level_string_empty_outside (l : Int) (h : l < 1 ∨ 24 < l) : Level.String l = "" := by
  have hmiss : mapIndex levelToStr l = none := by
    apply lookup_miss_of_keys_ne
    intro p hp
    simp only [levelToStr, List.mem_cons, List.mem_singleton, List.mem_nil_iff, or_false] at hp
    rcases hp with h | h | h | h | h | h | h | h | h | h | h | h | h | h | h | h | h | h |
      h | h | h | h | h | h <;> (subst h; intro e; revert h; rw [← e]; decide)
  simp [Level.String, mapIndexStr, hmiss]

end Otlog

/-! ## Injectivity, band order and exclusiveness -/

namespace Otlog

/-- C11: the severity-to-string mapping is total and injective on the valid
range: for all severities `a`, `b` in `[1,24]`, the table `severityToStr` has
an entry for `a`, which is what `a.String()` returns, `a.String() = b.String()`
implies `a = b`, and `a.String()` is a non-empty string. -/
theorem severity_string_total_injective (a b : Severity) (ha1 : 1 ≤ a) (ha24 : a ≤ 24)
    (hb1 : 1 ≤ b) (hb24 : b ≤ 24) :
    (∃ name, mapIndex severityToStr a = some name ∧ Severity.String a = name) ∧
      (Severity.String a = Severity.String b → a = b) ∧
      Severity.String a ≠ "" := by
  refine ⟨?_, ?_, ?_⟩
  · interval_cases a <;> exact ⟨_, rfl, rfl⟩
  · intro h
    have ra : SeverityValue (quoted (Severity.String a)) = (a, none) := by
      clear h
      interval_cases a <;> decide
    have rb : SeverityValue (quoted (Severity.String b)) = (b, none) := by
      clear h ra
      interval_cases b <;> decide
    rw [h, rb] at ra
    exact (Prod.mk.inj ra).1.symm
  · interval_cases a <;> decide

theorem severity_string_total_injective_witness :
    (∃ name, mapIndex severityToStr 5 = some name ∧ Severity.String 5 = name) ∧
      (Severity.String 5 = Severity.String 6 → (5 : Severity) = 6) ∧
      Severity.String 5 ≠ "" :=
  severity_string_total_injective 5 6 (by decide) (by decide) (by decide) (by decide)

/-- C12: for every integer severity `v` with `v ≤ 0` or `v > 24`, all six band
predicates return false. -/
theorem band_predicates_false_out_of_range (v : Severity) (h : v ≤ 0 ∨ 24 < v) :
    Severity.IsTraceSeverity v = false ∧ Severity.IsDebugSeverity v = false ∧
      Severity.IsInfoSeverity v = false ∧ Severity.IsWarnSeverity v = false ∧
      Severity.IsErrorSeverity v = false ∧ Severity.IsFatalSeverity v = false := by
  have hv : @LE.le Int _ v 0 ∨ @LT.lt Int _ 24 v := h
  simp only [Bool.eq_false_iff, ne_eq, isTraceSeverity_iff, isDebugSeverity_iff,
    isInfoSeverity_iff, isWarnSeverity_iff, isErrorSeverity_iff, isFatalSeverity_iff]
  omega

theorem band_predicates_false_out_of_range_witness :
    Severity.IsTraceSeverity (-3) = false ∧ Severity.IsDebugSeverity (-3) = false ∧
      Severity.IsInfoSeverity (-3) = false ∧ Severity.IsWarnSeverity (-3) = false ∧
      Severity.IsErrorSeverity (-3) = false ∧ Severity.IsFatalSeverity (-3) = false :=
  band_predicates_false_out_of_range (-3) (Or.inl (by decide))

/-- C13: band order is monotonic in the severity value. For severities `a`, `b`
where `a` satisfies the band predicate with index `i` and `b` the one with
index `j` (Trace = 0 < Debug = 1 < Info = 2 < Warn = 3 < Error = 4 <
Fatal = 5), which makes both valid, in `[1,24]`: if `a < b` then `i ≤ j`, and
if `i < j` then `a < b`. -/
theorem band_order_monotonic (a b : Severity) (i j : Nat) (hi : bandPredicate i a = true)
    (hj : bandPredicate j b = true) :
    (1 ≤ a ∧ a ≤ 24 ∧ 1 ≤ b ∧ b ≤ 24) ∧ (a < b → i ≤ j) ∧ (i < j → a < b) := by
  rw [bandPredicate_iff] at hi hj
  obtain ⟨hi6, hilo, hihi, _⟩ := hi
  obtain ⟨hj6, hjlo, hjhi, _⟩ := hj
  refine ⟨?_, ?_, ?_⟩
  · show @LE.le Int _ 1 a ∧ @LE.le Int _ a 24 ∧ @LE.le Int _ 1 b ∧ @LE.le Int _ b 24
    omega
  · intro hab
    have hab2 : @LT.lt Int _ a b := hab
    omega
  · intro hij
    show @LT.lt Int _ a b
    omega

theorem band_order_monotonic_witness :
    ((1 : Severity) ≤ 3 ∧ (3 : Severity) ≤ 24 ∧ (1 : Severity) ≤ 9 ∧ (9 : Severity) ≤ 24) ∧
      ((3 : Severity) < 9 → 0 ≤ 2) ∧ (0 < 2 → (3 : Severity) < 9) :=
  band_order_monotonic 3 9 0 2 (by decide) (by decide)

end Otlog

/-! ## The Level variant of log.go, and start-up -/

namespace Otlog

/-- C14: in log.go, stringifying an out-of-range level yields no placeholder:
`Level(25).String()`, `Level(0).String()` and `Level(100).String()` are the
empty string, which does not contain the decimal text of the level, whereas the
method of logger.go returns its placeholder for the same values. -/
theorem level_string_out_of_range_is_empty :
    Level.String 25 = "" ∧ Level.String 0 = "" ∧ Level.String 100 = "" ∧
      (Level.String 25).length = 0 ∧ fmtD 25 = "25" ∧
      (¬ ∃ pre post : String, Level.String 25 = pre ++ fmtD 25 ++ post) ∧
      Severity.String 25 = "**INVALID OpenTelemetry log Severity value - 25**" := by
  refine ⟨by decide, by decide, by decide, by decide, by decide, ?_, by decide⟩
  rintro ⟨pre, post, h⟩
  have hlen := congrArg String.length h
  have h0 : (Level.String 25).length = 0 := by decide
  have h2 : (fmtD 25).length = 2 := by decide
  rw [String.length_append, String.length_append, h0, h2] at hlen
  omega

/-- C15: `init` panics if and only if build info is unavailable; otherwise it
sets `moduleVersion` to the version of the main module, and `newTelemetrySDK`
returns that version as `TelemetrySDKversion` together with the fixed name
`otlog` and the fixed language `go`. -/
theorem init_version_resolution (readBuildInfo : Option BuildInfo) :
    ((∃ panicValue, init readBuildInfo = Except.error panicValue) ↔ readBuildInfo = none) ∧
      init none = Except.error "unable to retrieve module version number!" ∧
      (∀ bi : BuildInfo, init (some bi) = Except.ok bi.Main.Version) ∧
      (∀ (bi : BuildInfo) (moduleVersion : String),
        init (some bi) = Except.ok moduleVersion →
          (newTelemetrySDK moduleVersion).TelemetrySDKversion = bi.Main.Version ∧
            (newTelemetrySDK moduleVersion).TelemetrySDKname = "otlog" ∧
            (newTelemetrySDK moduleVersion).TelemetrySDKlanguage = "go") := by
  refine ⟨?_, rfl, fun _ => rfl, ?_⟩
  · cases readBuildInfo with
    | none => simp [init]
    | some bi => simp [init]
  · intro bi moduleVersion h
    simp only [init, Except.ok.injEq] at h
    subst h
    exact ⟨rfl, rfl, rfl⟩

end Otlog

/-! ## Exclusiveness of the bands, and agreement of the two files -/

namespace Otlog

/-- C16: the band predicates are mutually exclusive: for every integer
severity `v`, valid or not, at most one of the six band predicates returns
true, and two band predicates that both accept `v` are the same predicate. -/
theorem band_predicates_mutually_exclusive (v : Severity) :
    List.count true
        [Severity.IsTraceSeverity v, Severity.IsDebugSeverity v, Severity.IsInfoSeverity v,
          Severity.IsWarnSeverity v, Severity.IsErrorSeverity v,
          Severity.IsFatalSeverity v] ≤ 1 ∧
      ∀ i j : Nat, bandPredicate i v = true → bandPredicate j v = true → i = j := by
  constructor
  · by_cases hout : @LT.lt Int _ v 1 ∨ @LT.lt Int _ 24 v
    · obtain ⟨h0, h1, h2, h3, h4, h5⟩ := band_predicates_false_outside v hout
      rw [h0, h1, h2, h3, h4, h5]
      decide
    · have hlo : @LE.le Int _ 1 v := by omega
      have hhi : @LE.le Int _ v 24 := by omega
      clear hout
      interval_cases v <;> decide
  · intro i j hi hj
    rw [bandPredicate_iff] at hi hj
    omega

/-- C17: for every severity `v` with `1 ≤ v ≤ 24`, `ShouldNotIgnore v` is true
iff `IsErrorSeverity v` or `IsFatalSeverity v` is true; for every `v > 24`,
`ShouldNotIgnore v` is true while no band predicate is. -/
theorem shouldNotIgnore_vs_top_bands (v : Severity) :
    (1 ≤ v → v ≤ 24 →
      (Severity.ShouldNotIgnore v = true ↔
        (Severity.IsErrorSeverity v = true ∨ Severity.IsFatalSeverity v = true))) ∧
    (24 < v →
      Severity.ShouldNotIgnore v = true ∧
        Severity.IsTraceSeverity v = false ∧ Severity.IsDebugSeverity v = false ∧
        Severity.IsInfoSeverity v = false ∧ Severity.IsWarnSeverity v = false ∧
        Severity.IsErrorSeverity v = false ∧ Severity.IsFatalSeverity v = false) := by
  constructor
  · intro h1 h24
    have h1i : @LE.le Int _ 1 v := h1
    have h24i : @LE.le Int _ v 24 := h24
    rw [shouldNotIgnore_eq_true_iff, isErrorSeverity_iff, isFatalSeverity_iff]
    omega
  · intro h
    have hi : @LT.lt Int _ 24 v := h
    refine ⟨?_, band_predicates_false_outside v (Or.inr hi)⟩
    rw [shouldNotIgnore_eq_true_iff]
    omega

end Otlog

namespace Otlog

/-- C18: the Level API of log.go and the Severity API of logger.go agree: for
every string `s`, `LevelValue s` and `SeverityValue s` either both fail or both
succeed, with the same integer; for every integer `v` each band predicate on
levels equals the corresponding band predicate on severities; and for every
`v` in `[1,24]`, `Level(v).String() = Severity(v).String()`. -/
theorem level_api_agrees_with_severity_api (s : String) (v : Int) :
    (((LevelValue s).2 = none ∧ (SeverityValue s).2 = none) ∨
        ((LevelValue s).2 ≠ none ∧ (SeverityValue s).2 ≠ none)) ∧
      (LevelValue s).1 = (SeverityValue s).1 ∧
      Level.IsTraceLevel v = Severity.IsTraceSeverity v ∧
      Level.IsDebugLevel v = Severity.IsDebugSeverity v ∧
      Level.IsInfoLevel v = Severity.IsInfoSeverity v ∧
      Level.IsWarnLevel v = Severity.IsWarnSeverity v ∧
      Level.IsErrorLevel v = Severity.IsErrorSeverity v ∧
      Level.IsFatalLevel v = Severity.IsFatalSeverity v ∧
      (1 ≤ v → v ≤ 24 → Level.String v = Severity.String v) := by
  have htab : mapIndex strToLevel s = mapIndex strToSeverity s := rfl
  refine ⟨?_, ?_, rfl, rfl, rfl, rfl, rfl, rfl, ?_⟩
  · unfold LevelValue SeverityValue
    rw [htab]
    cases mapIndex strToSeverity s with
    | none => right; simp
    | some val => left; simp
  · unfold LevelValue SeverityValue
    rw [htab]
    cases mapIndex strToSeverity s with
    | none => rfl
    | some val => rfl
  · intro h1 h24
    interval_cases v <;> decide

end Otlog
